import Mathlib

/-
Verification of the functions-vote repository: a shallow embedding of the
FunctionsConsumer contract (src/contracts/FunctionsConsumer.sol) and of the
off-chain snapshot decision resolver (src/snapshot.js), with theorems about
the claims of the specification.

Modelling conventions:
- bytes are `List Nat` (one Nat per byte), a bytes32 value is a `List Nat` of
  length 32;
- keccak256(abi.encode(to, value, data, operation)) is an uninterpreted
  parameter `hash : Nat → Nat → List Nat → Nat → List Nat` of the theorems;
- the outcome (success flag, return data) of the low-level call performed by
  `exec` is an environment parameter `env`, which receives the storage state
  at the moment of the call, so that a theorem can express what the callee
  can observe (in particular the executed flag, the reentrancy guard);
- a Solidity revert is `Except.error`; the all-or-nothing rollback of a
  reverted transaction is applied by `runExecuteWithIndex` and `step`, which
  return the pre-state on error;
- JavaScript numbers of the vote result are modelled as `Int`, absent JSON
  fields as `Option`.
-/

namespace FunctionsVote

/-- Translation of FunctionsConsumer.bytesToBytes32Array: the loop reads
dataNb = data.length / 32 full 32-byte words in order (iteration j reads the
payload bytes in the interval from 32*j to 32*j+32), so a trailing partial
chunk is silently dropped and the empty input yields the empty list. -/
def bytesToBytes32Array (data : List Nat) : List (List Nat) :=
  (List.range (data.length / 32)).map (fun j => (data.drop (32 * j)).take 32)

/-- Translation of the Operation enum of FunctionsConsumer. -/
inductive Operation
  | CALL
  | DELEGATECALL
deriving DecidableEq

/-- Result of the body of FunctionsConsumer.exec: either the function
returns a boolean, or it reverts silently, or it reverts re-raising a
payload. -/
inductive ExecResult
  | returned (success : Bool)
  | revertedSilently
  | revertedWith (payload : List Nat)
deriving DecidableEq

/-- Translation of FunctionsConsumer.exec. The outcome (success, returnData)
of the low-level call is an input from the environment. The source returns
`success` directly inside both the CALL branch and the DELEGATECALL branch;
the failure-handling code below those branches (revert "Transaction reverted
silently" on empty returnData, assembly re-raise otherwise) is translated
faithfully after them, in the order the source writes it. -/
def exec (operation : Operation) (success : Bool) (returnData : List Nat) : ExecResult :=
  if operation = Operation.CALL then ExecResult.returned success
  else if operation = Operation.DELEGATECALL then ExecResult.returned success
  else if success = false then
    if returnData.length = 0 then ExecResult.revertedSilently
    else ExecResult.revertedWith returnData
  else ExecResult.returned true

/-- The storage of FunctionsConsumer: the three mappings of the source plus
the pending-request record kept by the FunctionsClient base contract
(see handleOracleFulfillment). Solidity mapping defaults are the initState
values. -/
structure ConsumerState where
  functionRequestsForProposals : Nat → String
  proposals : String → List (List Nat)
  executed : String → Bool
  pending : Nat → Bool

/-- The state of a freshly deployed contract: every mapping at its default. -/
def initState : ConsumerState :=
  { functionRequestsForProposals := fun _ => ""
    proposals := fun _ => []
    executed := fun _ => false
    pending := fun _ => false }

/-- Storage write executed[p] = true. -/
def markExecuted (s : ConsumerState) (p : String) : ConsumerState :=
  { s with executed := fun q => if q = p then true else s.executed q }

/-- Storage write proposals[p] = v. -/
def setProposals (s : ConsumerState) (p : String) (v : List (List Nat)) : ConsumerState :=
  { s with proposals := fun q => if q = p then v else s.proposals q }

/-- Storage write functionRequestsForProposals[rid] = p. -/
def setCorrelation (s : ConsumerState) (rid : Nat) (p : String) : ConsumerState :=
  { s with functionRequestsForProposals := fun r => if r = rid then p else s.functionRequestsForProposals r }

/-- Storage write on the pending-request record. -/
def setPending (s : ConsumerState) (rid : Nat) (b : Bool) : ConsumerState :=
  { s with pending := fun r => if r = rid then b else s.pending r }

/-- The revert reasons of the contract. alreadyExecuted is the string
"Proposal already executed", hashMismatch is "Tx hash mismatch",
moduleTransactionFailed is "Module transaction failed", indexOutOfBounds is
the Panic(0x32) of an out-of-bounds array read, silentExecutionFailure is
"Transaction reverted silently", bubbled carries a re-raised payload, and
requestNotPending is the FunctionsClient refusal of an unknown request id. -/
inductive EvmError
  | alreadyExecuted
  | indexOutOfBounds
  | hashMismatch
  | moduleTransactionFailed
  | silentExecutionFailure
  | bubbled (payload : List Nat)
  | requestNotPending
deriving DecidableEq

/-- The ternary operation == 0 ? Operation.CALL : Operation.DELEGATECALL of
executeProposalWithIndex. -/
def opOf (operation : Nat) : Operation :=
  if operation = 0 then Operation.CALL else Operation.DELEGATECALL

/-- The type of the uninterpreted keccak256(abi.encode(to, value, data,
operation)) parameter. -/
abbrev HashFn := Nat → Nat → List Nat → Nat → List Nat

/-- The type of the call environment: given the storage state at the moment
of the low-level call and the call arguments, it yields the (success,
returnData) outcome of that call. -/
abbrev CallEnv := ConsumerState → Nat → Nat → List Nat → Operation → Bool × List Nat

/-- Translation of FunctionsConsumer.executeRequest restricted to the state
it touches: it requires the proposal (args[0]) to be unexecuted and records
requestId -> proposalId. The request id itself is assigned by the oracle
layer, so it is an argument here; the pending-request record written by
sendRequest lives in the FunctionsClient base contract, modelled together
with handleOracleFulfillment. -/
def executeRequest (s : ConsumerState) (proposalId : String) (requestId : Nat) : Except EvmError ConsumerState :=
  if s.executed proposalId then Except.error EvmError.alreadyExecuted
  else Except.ok (setPending (setCorrelation s requestId proposalId) requestId true)

/-- Translation of FunctionsConsumer.fulfillRequest: it requires the
correlated proposal to be unexecuted, then stores
bytesToBytes32Array(response) unconditionally; the err argument is only
emitted in the OCRResponse event and never branched on. -/
def fulfillRequest (s : ConsumerState) (requestId : Nat) (response err : List Nat) : Except EvmError ConsumerState :=
  if s.executed (s.functionRequestsForProposals requestId) then Except.error EvmError.alreadyExecuted
  else Except.ok (setProposals s (s.functionRequestsForProposals requestId) (bytesToBytes32Array response))

/-- Modelled from the spec: the oracle transport wrapper
(FunctionsClient.handleOracleFulfillment and the pending-request record kept
by sendRequest) is code of this repository that is not under src/. Per the
spec, a commit arrives at most once per request id, so the request id is
consumed by the first delivery and a redelivery is refused. The inner
fulfillRequest is translated from src. -/
def handleOracleFulfillment (s : ConsumerState) (requestId : Nat) (response err : List Nat) : Except EvmError ConsumerState :=
  if s.pending requestId then fulfillRequest (setPending s requestId false) requestId response err
  else Except.error EvmError.requestNotPending

/-- Translation of FunctionsConsumer.executeProposalWithIndex: require the
proposal unexecuted, write the executed flag, read
proposals[proposalId][txIndex] (an out-of-bounds index is a Panic revert),
require the hash of the call tuple to equal that commitment, then require
exec to return true. The call environment receives the storage state at the
moment of the call, in which the executed flag is already set. -/
def executeProposalWithIndex (hash : HashFn) (env : CallEnv) (s : ConsumerState)
    (proposalId : String) (toAddr value : Nat) (data : List Nat)
    (operation : Nat) (txIndex : Nat) : Except EvmError ConsumerState :=
  if s.executed proposalId then Except.error EvmError.alreadyExecuted
  else
    match (s.proposals proposalId)[txIndex]? with
    | none => Except.error EvmError.indexOutOfBounds
    | some c =>
      if hash toAddr value data operation = c then
        match exec (opOf operation)
            (env (markExecuted s proposalId) toAddr value data (opOf operation)).1
            (env (markExecuted s proposalId) toAddr value data (opOf operation)).2 with
        | ExecResult.returned b =>
          if b then Except.ok (markExecuted s proposalId)
          else Except.error EvmError.moduleTransactionFailed
        | ExecResult.revertedSilently => Except.error EvmError.silentExecutionFailure
        | ExecResult.revertedWith payload => Except.error (EvmError.bubbled payload)
      else Except.error EvmError.hashMismatch

/-- Translation of FunctionsConsumer.executeProposal: the txIndex used is
always 0. -/
def executeProposal (hash : HashFn) (env : CallEnv) (s : ConsumerState)
    (proposalId : String) (toAddr value : Nat) (data : List Nat) (operation : Nat) : Except EvmError ConsumerState :=
  executeProposalWithIndex hash env s proposalId toAddr value data operation 0

/-- Transaction semantics of a call to executeProposalWithIndex: a revert
rolls every storage write of the attempt back, leaving the pre-state; the
second component is the revert reason, if any. -/
def runExecuteWithIndex (hash : HashFn) (env : CallEnv) (s : ConsumerState)
    (proposalId : String) (toAddr value : Nat) (data : List Nat)
    (operation : Nat) (txIndex : Nat) : ConsumerState × Option EvmError :=
  match executeProposalWithIndex hash env s proposalId toAddr value data operation txIndex with
  | Except.ok t => (t, none)
  | Except.error e => (s, some e)

/-- The externally invokable mutating operations of the contract. -/
inductive ConsumerAction
  | executeRequest (proposalId : String) (requestId : Nat)
  | fulfill (requestId : Nat) (response : List Nat) (err : List Nat)
  | execute (proposalId : String) (toAddr : Nat) (value : Nat) (data : List Nat) (operation : Nat) (txIndex : Nat)
deriving DecidableEq

/-- Commit an attempted transaction: a revert leaves the pre-state. -/
def applyTx (s : ConsumerState) (r : Except EvmError ConsumerState) : ConsumerState :=
  match r with
  | Except.ok t => t
  | Except.error _ => s

/-- One serialized top-level transaction against the contract. -/
def step (hash : HashFn) (env : CallEnv) (s : ConsumerState) (a : ConsumerAction) : ConsumerState :=
  match a with
  | ConsumerAction.executeRequest p rid => applyTx s (executeRequest s p rid)
  | ConsumerAction.fulfill rid resp err => applyTx s (handleOracleFulfillment s rid resp err)
  | ConsumerAction.execute p t v d op i => applyTx s (executeProposalWithIndex hash env s p t v d op i)

/-- The state reached from a fresh deployment by a serialized list of
transactions. -/
def runTrace (hash : HashFn) (env : CallEnv) (tr : List ConsumerAction) : ConsumerState :=
  tr.foldl (step hash env) initState

/-- A safeSnap transaction of the vote payload, fields as consumed by
src/snapshot.js. -/
structure SafeTx where
  toAddr : String
  value : String
  data : String
  operation : Nat
deriving DecidableEq

/-- A safeSnap transaction batch: plugins.safeSnap.safes[].txs[] entries. -/
structure TxBatch where
  hash : String
  transactions : List SafeTx
deriving DecidableEq

/-- A plugins.safeSnap.safes[] entry. -/
structure SafeEntry where
  txs : List TxBatch
deriving DecidableEq

/-- The plugins.safeSnap object, with the optional fields the script reads. -/
structure SafeSnap where
  executableIf : Option String
  safes : List SafeEntry
  txString : Option String
deriving DecidableEq

/-- The proposal object returned by the snapshot graphql query, as consumed
by src/snapshot.js: choices, plugins.safeSnap, quorum, scores, scores_state,
scores_total. JavaScript numbers are modelled as Int. -/
structure SnapshotProposal where
  choices : List String
  safeSnap : Option SafeSnap
  quorum : Int
  scores : List Int
  scores_state : String
  scores_total : Int
deriving DecidableEq

/-- The failure modes of the resolver script: the two thrown Errors, plus the
TypeError a member access on an undefined value throws. -/
inductive ResolveError
  | notFinalized
  | quorumNotReached
  | typeError
deriving DecidableEq

/-- The terminal outcomes of the resolver script: the returned Error object
(the sentinel of the no-execution decision, line 62 of src/snapshot.js is a
return, not a throw) or the returned bytes payload. -/
inductive Outcome
  | noExecution
  | payload (bytes : List Nat)
deriving DecidableEq

/-- Translation of choices[scores.indexOf(Math.max(...scores))]: the choice
at the first index achieving the maximum score; undefined (none) when scores
is empty (Math.max() is minus infinity, indexOf yields -1) or when that
index is out of bounds of choices. -/
def winningChoice (choices : List String) (scores : List Int) : Option String :=
  match scores with
  | [] => none
  | s :: rest => choices[(List.indexOf ((s :: rest).foldl max s) (s :: rest))]?

/-- Value of a hexadecimal digit character, as Buffer.from(.., hex) accepts
it (both cases). -/
def hexVal (c : Char) : Option Nat :=
  if '0' ≤ c ∧ c ≤ '9' then some (c.toNat - '0'.toNat)
  else if 'a' ≤ c ∧ c ≤ 'f' then some (c.toNat - 'a'.toNat + 10)
  else if 'A' ≤ c ∧ c ≤ 'F' then some (c.toNat - 'A'.toNat + 10)
  else none

/-- Translation of Buffer.from(hexString, hex): decode consecutive pairs of
hex digits into bytes, stopping at the first character pair that is not
valid hex and dropping an odd trailing digit. -/
def hexDecodeChars : List Char → List Nat
  | c1 :: c2 :: rest =>
    match hexVal c1, hexVal c2 with
    | some hi, some lo => (16 * hi + lo) :: hexDecodeChars rest
    | _, _ => []
  | _ => []

/-- Translation of lines 65 and 68-71 of src/snapshot.js: the reads of
safes[0]?.txs[0].hash and safes[0]?.txs[0].transactions[0].{to,value,data,
operation}. The optional chain short-circuits to undefined when safeSnap or
safes[0] is missing, but throws a TypeError when txs[0] or transactions[0]
is missing, because the subsequent member accesses are not optional. -/
def extractFirstTx (ss : Option SafeSnap) : Except ResolveError (Option SafeTx) :=
  match ss with
  | none => Except.ok none
  | some sp =>
    match sp.safes[0]? with
    | none => Except.ok none
    | some safe0 =>
      match safe0.txs[0]? with
      | none => Except.error ResolveError.typeError
      | some batch0 =>
        match batch0.transactions[0]? with
        | none => Except.error ResolveError.typeError
        | some tx => Except.ok (some tx)

/-- Translation of the decision logic of src/snapshot.js, as a function of
the queried proposal: throw unless scores_state is final; throw unless
scores_total reaches quorum; compute shouldExecute as the strict equality of
plugins?.safeSnap?.executableIf with the winning choice (undefined equals
undefined in JavaScript, hence Option equality); if not shouldExecute,
return (not throw) the Error sentinel; otherwise perform the first-
transaction reads of lines 65-71, then slice the 0x prefix off
plugins?.safeSnap?.txString (a TypeError when it is undefined) and return
the hex-decoded bytes of the remainder. -/
def resolve (p : SnapshotProposal) : Except ResolveError Outcome :=
  if p.scores_state ≠ "final" then Except.error ResolveError.notFinalized
  else if p.scores_total < p.quorum then Except.error ResolveError.quorumNotReached
  else if p.safeSnap.bind SafeSnap.executableIf ≠ winningChoice p.choices p.scores then
    Except.ok Outcome.noExecution
  else
    match extractFirstTx p.safeSnap with
    | Except.error e => Except.error e
    | Except.ok _ =>
      match p.safeSnap.bind SafeSnap.txString with
      | none => Except.error ResolveError.typeError
      | some ts => Except.ok (Outcome.payload (hexDecodeChars (ts.data.drop 2)))

/-
Helper lemmas, shared between the claim theorems.
-/

/-- The early returns inside the CALL and DELEGATECALL branches of exec make
exec return the raw success flag of the low-level call for every operation,
so the failure-handling code below those branches never runs. -/
theorem exec_eq_returned (operation : Operation) (success : Bool) (returnData : List Nat) :
    exec operation success returnData = ExecResult.returned success := by
  cases operation <;> simp [exec]

/-- Inversion of a successful executeProposalWithIndex call: the proposal
was unexecuted, the post-state is exactly the pre-state with the executed
flag set, and some stored commitment at txIndex was matched by the hash
while the call environment reported success on the flagged state. -/
theorem executeOk_inversion (hash : HashFn) (env : CallEnv) (s t : ConsumerState)
    (p : String) (a v : Nat) (d : List Nat) (op i : Nat)
    (h : executeProposalWithIndex hash env s p a v d op i = Except.ok t) :
    s.executed p = false ∧ t = markExecuted s p ∧
      ∃ c, (s.proposals p)[i]? = some c ∧ hash a v d op = c ∧
        (env (markExecuted s p) a v d (opOf op)).1 = true := by
  unfold executeProposalWithIndex at h
  split at h
  · exact absurd h (by simp)
  · rename_i h1
    have h1' : s.executed p = false := by
      cases hb : s.executed p
      · rfl
      · exact absurd hb h1
    simp only [exec_eq_returned] at h
    split at h
    · exact absurd h (by simp)
    · rename_i c hget
      split at h
      · rename_i h2
        split at h
        · rename_i h3
          exact ⟨h1', (Except.ok.inj h).symm, c, hget, h2, h3⟩
        · exact absurd h (by simp)
      · exact absurd h (by simp)

/-- A step of any action preserves a set executed flag and, for an executed
proposal, leaves its stored commitment list untouched. -/
theorem step_preserves_executed (hash : HashFn) (env : CallEnv) (s : ConsumerState)
    (a : ConsumerAction) (p : String) (h : s.executed p = true) :
    (step hash env s a).executed p = true ∧ (step hash env s a).proposals p = s.proposals p := by
  cases a with
  | executeRequest q rid =>
    by_cases hq : s.executed q = true
    · simp [step, executeRequest, hq, applyTx, h]
    · simp [step, executeRequest, hq, applyTx, setPending, setCorrelation, h]
  | fulfill rid resp err =>
    by_cases hp : s.pending rid = true
    · by_cases hq : s.executed (s.functionRequestsForProposals rid) = true
      · simp [step, handleOracleFulfillment, fulfillRequest, hp, hq, applyTx, setPending, h]
      · have hne : p ≠ s.functionRequestsForProposals rid := by
          intro e
          rw [e] at h
          exact hq h
        simp [step, handleOracleFulfillment, fulfillRequest, hp, hq, applyTx, setPending,
          setProposals, h, hne]
    · simp [step, handleOracleFulfillment, hp, applyTx, h]
  | execute q a v d op i =>
    cases hE : executeProposalWithIndex hash env s q a v d op i with
    | error e => simp [step, applyTx, hE, h]
    | ok t =>
      obtain ⟨hq0, ht, hrest⟩ := executeOk_inversion hash env s t q a v d op i hE
      subst ht
      simp [step, applyTx, hE, markExecuted, h]

/-- An executeRequest transaction never changes the executed flag of any
proposal. -/
theorem step_executeRequest_executed (hash : HashFn) (env : CallEnv) (s : ConsumerState)
    (q : String) (rid : Nat) (p : String) :
    (step hash env s (ConsumerAction.executeRequest q rid)).executed p = s.executed p := by
  by_cases hq : s.executed q = true
  · simp [step, executeRequest, hq, applyTx]
  · simp [step, executeRequest, hq, applyTx, setPending, setCorrelation]

/-- A fulfill transaction never changes the executed flag of any proposal. -/
theorem step_fulfill_executed (hash : HashFn) (env : CallEnv) (s : ConsumerState)
    (rid : Nat) (resp err : List Nat) (p : String) :
    (step hash env s (ConsumerAction.fulfill rid resp err)).executed p = s.executed p := by
  by_cases hp : s.pending rid = true
  · by_cases hq : s.executed (s.functionRequestsForProposals rid) = true
    · simp [step, handleOracleFulfillment, fulfillRequest, hp, hq, applyTx, setPending]
    · simp [step, handleOracleFulfillment, fulfillRequest, hp, hq, applyTx, setPending, setProposals]
  · simp [step, handleOracleFulfillment, hp, applyTx]

/-- Unfolding a trace by its last transaction. -/
theorem runTrace_snoc (hash : HashFn) (env : CallEnv) (tr : List ConsumerAction) (a : ConsumerAction) :
    runTrace hash env (tr ++ [a]) = step hash env (runTrace hash env tr) a := by
  simp [runTrace, List.foldl_append]

/-
Concrete inputs used by witnesses and counterexamples.
-/

/-- A concrete stand-in for the uninterpreted hash: every tuple hashes to the
32-byte word of sevens. -/
def hashW : HashFn := fun _ _ _ _ => List.replicate 32 7

/-- A concrete stand-in hash that never produces the word of sevens. -/
def hashZ : HashFn := fun _ _ _ _ => List.replicate 32 0

/-- A call environment whose low-level calls always succeed. -/
def envW : CallEnv := fun _ _ _ _ _ => (true, [])

/-- A call environment whose low-level calls always fail, with the four-byte
Error selector 0x08c379a0 as return payload. -/
def envFail : CallEnv := fun _ _ _ _ _ => (false, [8, 195, 121, 160])

/-- A state holding one commitment (the word of sevens) for proposal p. -/
def sW : ConsumerState := setProposals initState "p" [List.replicate 32 7]

/-
Claim theorems.
-/

/-- Claim C1. At-most-once execution: for a proposal p not yet executed with
commitment c stored at index i, a call of executeProposalWithIndex at index
i whose tuple hashes to c and whose dispatch succeeds yields exactly the
state with the executed flag set; afterwards every further call for p,
including the identical one and the txIndex-0 executeProposal wrapper, fails
with AlreadyExecuted. The executed flag is set before dispatch and is the
reentrancy guard: the result of the call depends on the call environment
only through its behaviour at the state in which the flag is already set.
executeProposal itself is the txIndex = 0 instance. -/
theorem C1_at_most_once (hash : HashFn) (env : CallEnv) (s : ConsumerState)
    (p : String) (a v : Nat) (d : List Nat) (op i : Nat) (c : List Nat)
    (h1 : s.executed p = false)
    (h2 : (s.proposals p)[i]? = some c)
    (h3 : hash a v d op = c)
    (h4 : (env (markExecuted s p) a v d (opOf op)).1 = true) :
    executeProposalWithIndex hash env s p a v d op i = Except.ok (markExecuted s p) ∧
    (markExecuted s p).executed p = true ∧
    (∀ a2 v2 d2 op2 i2, executeProposalWithIndex hash env (markExecuted s p) p a2 v2 d2 op2 i2 =
      Except.error EvmError.alreadyExecuted) ∧
    (∀ t a2 v2 d2 op2, executeProposal hash env t p a2 v2 d2 op2 =
      executeProposalWithIndex hash env t p a2 v2 d2 op2 0) ∧
    (∀ env1 env2 : CallEnv,
      (∀ a2 v2 d2 o2, env1 (markExecuted s p) a2 v2 d2 o2 = env2 (markExecuted s p) a2 v2 d2 o2) →
      executeProposalWithIndex hash env1 s p a v d op i =
        executeProposalWithIndex hash env2 s p a v d op i) := by
  refine ⟨?_, ?_, ?_, ?_, ?_⟩
  · simp [executeProposalWithIndex, h1, h2, h3, h4, exec_eq_returned]
  · simp [markExecuted]
  · intro a2 v2 d2 op2 i2
    simp [executeProposalWithIndex, markExecuted]
  · intro t a2 v2 d2 op2
    rfl
  · intro env1 env2 hagree
    simp only [executeProposalWithIndex, h1, h2, exec_eq_returned]
    rw [hagree a v d (opOf op)]

/-- Witness for C1 at a concrete state: one stored commitment for p, a
matching hash, a succeeding dispatch. -/
theorem C1_witness :
    executeProposalWithIndex hashW envW sW "p" 5 0 [] 0 0 = Except.ok (markExecuted sW "p") ∧
    executeProposalWithIndex hashW envW (markExecuted sW "p") "p" 5 0 [] 0 0 =
      Except.error EvmError.alreadyExecuted ∧
    executeProposal hashW envW (markExecuted sW "p") "p" 5 0 [] 0 =
      Except.error EvmError.alreadyExecuted := by
  have h := C1_at_most_once hashW envW sW "p" 5 0 [] 0 0 (List.replicate 32 7)
    (by decide) (by decide) (by decide) (by decide)
  refine ⟨h.1, h.2.2.1 5 0 [] 0 0, ?_⟩
  rw [h.2.2.2.1 (markExecuted sW "p") 5 0 [] 0]
  exact h.2.2.1 5 0 [] 0 0

/-- Claim C2. Hash-mismatch atomicity: for a proposal p not yet executed and
a tuple whose hash differs from the stored commitment at the given index,
the call reverts with HashMismatch, the transaction leaves the pre-state (so
the optimistic executed-flag write is rolled back and executed[p] stays
false), and no dispatch occurs: the revert is the same for every call
environment. -/
theorem C2_hash_mismatch_atomicity (hash : HashFn) (env : CallEnv) (s : ConsumerState)
    (p : String) (a v : Nat) (d : List Nat) (op i : Nat) (c : List Nat)
    (h1 : s.executed p = false)
    (h2 : (s.proposals p)[i]? = some c)
    (h3 : hash a v d op ≠ c) :
    runExecuteWithIndex hash env s p a v d op i = (s, some EvmError.hashMismatch) ∧
    ((runExecuteWithIndex hash env s p a v d op i).1).executed p = false ∧
    (∀ env2 : CallEnv, executeProposalWithIndex hash env2 s p a v d op i =
      Except.error EvmError.hashMismatch) := by
  have hall : ∀ env2 : CallEnv, executeProposalWithIndex hash env2 s p a v d op i =
      Except.error EvmError.hashMismatch := by
    intro env2
    simp [executeProposalWithIndex, h1, h2, h3]
  have hrun : runExecuteWithIndex hash env s p a v d op i = (s, some EvmError.hashMismatch) := by
    simp [runExecuteWithIndex, hall env]
  exact ⟨hrun, by rw [hrun]; exact h1, hall⟩

/-- Witness for C2 at a concrete state: the stored commitment is the word of
sevens, the submitted tuple hashes to the word of zeros. -/
theorem C2_witness :
    runExecuteWithIndex hashZ envW sW "p" 5 0 [] 0 0 = (sW, some EvmError.hashMismatch) ∧
    ((runExecuteWithIndex hashZ envW sW "p" 5 0 [] 0 0).1).executed "p" = false := by
  have h := C2_hash_mismatch_atomicity hashZ envW sW "p" 5 0 [] 0 0 (List.replicate 32 7)
    (by decide) (by decide) (by decide)
  exact ⟨h.1, h.2.1⟩

/-- Claim C10. Out-of-bounds index safety: for a proposal p not yet executed
and a txIndex at or past the end of its stored commitment list (including
the empty list of a proposal awaiting resolution), the call reverts with the
index-out-of-bounds Panic, not with HashMismatch; the transaction leaves the
pre-state, so executed[p] stays false, and no dispatch occurs: the revert is
the same for every call environment. -/
theorem C10_index_out_of_bounds (hash : HashFn) (env : CallEnv) (s : ConsumerState)
    (p : String) (a v : Nat) (d : List Nat) (op i : Nat)
    (h1 : s.executed p = false)
    (h2 : (s.proposals p).length ≤ i) :
    runExecuteWithIndex hash env s p a v d op i = (s, some EvmError.indexOutOfBounds) ∧
    EvmError.indexOutOfBounds ≠ EvmError.hashMismatch ∧
    ((runExecuteWithIndex hash env s p a v d op i).1).executed p = false ∧
    (∀ env2 : CallEnv, executeProposalWithIndex hash env2 s p a v d op i =
      Except.error EvmError.indexOutOfBounds) := by
  have hnone : (s.proposals p)[i]? = none := List.getElem?_eq_none h2
  have hall : ∀ env2 : CallEnv, executeProposalWithIndex hash env2 s p a v d op i =
      Except.error EvmError.indexOutOfBounds := by
    intro env2
    simp [executeProposalWithIndex, h1, hnone]
  have hrun : runExecuteWithIndex hash env s p a v d op i =
      (s, some EvmError.indexOutOfBounds) := by
    simp [runExecuteWithIndex, hall env]
  exact ⟨hrun, by simp, by rw [hrun]; exact h1, hall⟩

/-- Witness for C10 at the freshly deployed state: proposal p awaits
resolution, its commitment list is empty, and index 0 is already out of
bounds. -/
theorem C10_witness :
    runExecuteWithIndex hashW envW initState "p" 5 0 [] 0 0 =
      (initState, some EvmError.indexOutOfBounds) ∧
    ((runExecuteWithIndex hashW envW initState "p" 5 0 [] 0 0).1).executed "p" = false := by
  have h := C10_index_out_of_bounds hashW envW initState "p" 5 0 [] 0 0
    (by decide) (by decide)
  exact ⟨h.1, h.2.2.1⟩

/-- Claim C6, recorded as a code bug. The failure-bubbling code of exec is
dead: because both the CALL branch and the DELEGATECALL branch return the
raw success flag immediately, exec returns ExecResult.returned success for
every input and never reaches the silent-failure revert or the verbatim
re-raise of the return payload. Consequently a failing dispatch with a
non-empty return payload (here the Error selector 0x08c379a0) makes the gate
revert with the generic ModuleTransactionFailed reason instead of bubbling
the payload, and the SilentExecutionFailure and bubbled reverts are
unreachable. -/
theorem C6_no_failure_bubbling :
    (∀ (operation : Operation) (success : Bool) (returnData : List Nat),
      exec operation success returnData = ExecResult.returned success) ∧
    (runExecuteWithIndex hashW envFail sW "p" 5 0 [] 0 0).2 =
      some EvmError.moduleTransactionFailed ∧
    (runExecuteWithIndex hashW envFail sW "p" 5 0 [] 0 0).1 = sW := by
  refine ⟨exec_eq_returned, by decide, ?_⟩
  have h : executeProposalWithIndex hashW envFail sW "p" 5 0 [] 0 0 =
      Except.error EvmError.moduleTransactionFailed := by rfl
  simp [runExecuteWithIndex, h]

/-- Claim C8. CommitmentCodec decode: for every byte string the decode
partitions the input into consecutive 32-byte chunks in order, dropping a
trailing partial chunk: the output has length len / 32 and its chunk j is
the bytes from 32*j to 32*j + 32; in particular a 64-byte input yields 2
commitments, a 50-byte input yields 1, and the empty input yields the empty
list. -/
theorem C8_codec_decode (data d64 d50 : List Nat) (j : Nat)
    (h1 : j < data.length / 32) (h2 : d64.length = 64) (h3 : d50.length = 50) :
    (bytesToBytes32Array data)[j]? = some ((data.drop (32 * j)).take 32) ∧
    (bytesToBytes32Array data).length = data.length / 32 ∧
    (bytesToBytes32Array d64).length = 2 ∧
    (bytesToBytes32Array d50).length = 1 ∧
    bytesToBytes32Array [] = [] := by
  refine ⟨?_, ?_, ?_, ?_, rfl⟩
  · unfold bytesToBytes32Array
    rw [List.getElem?_map, List.getElem?_range h1]
    rfl
  · simp [bytesToBytes32Array]
  · simp [bytesToBytes32Array, h2]
  · simp [bytesToBytes32Array, h3]

/-- Witness for C8 on concrete byte strings of lengths 50, 64 and 0. -/
theorem C8_witness :
    (bytesToBytes32Array (List.replicate 50 1))[0]? =
      some (((List.replicate 50 1).drop (32 * 0)).take 32) ∧
    (bytesToBytes32Array (List.replicate 64 0)).length = 2 ∧
    (bytesToBytes32Array (List.replicate 50 1)).length = 1 := by
  have h := C8_codec_decode (List.replicate 50 1) (List.replicate 64 0) (List.replicate 50 1) 0
    (by decide) (by decide) (by decide)
  exact ⟨h.1, h.2.2.1, h.2.2.2.1⟩

/-- Claim C3. Registry invariant: in every state reachable from a fresh
deployment by a serialized trace of transactions, an executed proposal has a
non-empty stored commitment list, and the trace contains a successful
execute transaction for it: at that point the proposal was unexecuted, the
commitment at the used index was matched by the hash of the submitted tuple,
and the dispatch succeeded on the flagged state. -/
theorem C3_registry_invariant (hash : HashFn) (env : CallEnv)
    (tr : List ConsumerAction) (p : String)
    (h : (runTrace hash env tr).executed p = true) :
    (runTrace hash env tr).proposals p ≠ [] ∧
    ∃ t1 a t2, tr = t1 ++ a :: t2 ∧
      ∃ a2 v d op i c,
        a = ConsumerAction.execute p a2 v d op i ∧
        (runTrace hash env t1).executed p = false ∧
        ((runTrace hash env t1).proposals p)[i]? = some c ∧
        hash a2 v d op = c ∧
        (env (markExecuted (runTrace hash env t1) p) a2 v d (opOf op)).1 = true := by
  induction tr using List.reverseRecOn with
  | nil =>
    exact absurd h (by simp [runTrace, initState])
  | append_singleton t a ih =>
    rw [runTrace_snoc] at h
    by_cases hx : (runTrace hash env t).executed p = true
    · obtain ⟨hne, t1, b, t2, htr, hrest⟩ := ih hx
      have hpres := step_preserves_executed hash env (runTrace hash env t) a p hx
      refine ⟨?_, t1, b, t2 ++ [a], ?_, hrest⟩
      · rw [runTrace_snoc, hpres.2]
        exact hne
      · rw [htr]
        simp
    · have hx' : (runTrace hash env t).executed p = false := by
        cases hb : (runTrace hash env t).executed p
        · rfl
        · exact absurd hb hx
      cases a with
      | executeRequest q rid =>
        rw [step_executeRequest_executed] at h
        exact absurd h hx
      | fulfill rid resp err =>
        rw [step_fulfill_executed] at h
        exact absurd h hx
      | execute q a2 v d op i =>
        cases hE : executeProposalWithIndex hash env (runTrace hash env t) q a2 v d op i with
        | error e =>
          have hs : step hash env (runTrace hash env t) (ConsumerAction.execute q a2 v d op i) =
              runTrace hash env t := by
            simp [step, applyTx, hE]
          rw [hs] at h
          exact absurd h hx
        | ok u =>
          obtain ⟨hq0, hu, c, hget, hhash, henv⟩ :=
            executeOk_inversion hash env (runTrace hash env t) u q a2 v d op i hE
          subst hu
          have hs : step hash env (runTrace hash env t) (ConsumerAction.execute q a2 v d op i) =
              markExecuted (runTrace hash env t) q := by
            simp [step, applyTx, hE]
          rw [hs] at h
          have hpq : p = q := by
            by_cases hpq : p = q
            · exact hpq
            · rw [show (markExecuted (runTrace hash env t) q).executed p =
                  (runTrace hash env t).executed p from by simp [markExecuted, hpq]] at h
              exact absurd h hx
          subst hpq
          refine ⟨?_, t, ConsumerAction.execute p a2 v d op i, [], rfl, a2, v, d, op, i, c,
            rfl, hq0, hget, hhash, henv⟩
          rw [runTrace_snoc, hs]
          have hpp : (markExecuted (runTrace hash env t) p).proposals p =
              (runTrace hash env t).proposals p := rfl
          rw [hpp]
          intro hnil
          rw [hnil] at hget
          simp at hget

/-- A trace driving proposal p to executed: request a resolution, deliver a
32-byte commitment, execute the matching transaction. -/
def trW : List ConsumerAction :=
  [ConsumerAction.executeRequest "p" 1,
   ConsumerAction.fulfill 1 (List.replicate 32 7) [],
   ConsumerAction.execute "p" 5 0 [] 0 0]

/-- Witness for C3 at a concrete trace reaching an executed proposal. -/
theorem C3_witness :
    (runTrace hashW envW trW).executed "p" = true ∧
    (runTrace hashW envW trW).proposals "p" ≠ [] := by
  have h : (runTrace hashW envW trW).executed "p" = true := by decide
  exact ⟨h, (C3_registry_invariant hashW envW trW "p" h).1⟩

/-- Claim C7. Resolver validation ordering: a vote result whose scores_state
is not final makes resolve fail with NotFinalized regardless of scores and
quorum, and a final vote result whose scores_total is below quorum makes
resolve fail with QuorumNotReached; in both cases the result is an error, so
no payload is produced and nothing can be committed to the registry. -/
theorem C7_validation_order (p q : SnapshotProposal)
    (h1 : p.scores_state ≠ "final")
    (h2 : q.scores_state = "final")
    (h3 : q.scores_total < q.quorum) :
    resolve p = Except.error ResolveError.notFinalized ∧
    resolve q = Except.error ResolveError.quorumNotReached := by
  constructor
  · simp [resolve, h1]
  · simp [resolve, h2, h3]

/-- A vote result that is not final. -/
def votePending : SnapshotProposal :=
  { choices := ["A"], safeSnap := none, quorum := 0, scores := [100],
    scores_state := "pending", scores_total := 100 }

/-- A final vote result below quorum. -/
def voteNoQuorum : SnapshotProposal :=
  { choices := ["A"], safeSnap := none, quorum := 10, scores := [3],
    scores_state := "final", scores_total := 3 }

/-- Witness for C7: a pending vote with ample scores still fails with
NotFinalized, and a final vote below quorum fails with QuorumNotReached. -/
theorem C7_witness :
    resolve votePending = Except.error ResolveError.notFinalized ∧
    resolve voteNoQuorum = Except.error ResolveError.quorumNotReached :=
  C7_validation_order votePending voteNoQuorum (by decide) (by decide) (by decide)

/-- Claim C9. No-execution outcome: a finalized, quorum-reaching vote result
in which executableIf differs from the winning choice (the choice at the
lowest index achieving the maximum score) makes resolve return the
no-execution sentinel as a non-error terminal outcome (line 62 of
src/snapshot.js returns the Error object rather than throwing it). -/
theorem C9_no_execution_outcome (p : SnapshotProposal)
    (h1 : p.scores_state = "final")
    (h2 : ¬ p.scores_total < p.quorum)
    (h3 : p.safeSnap.bind SafeSnap.executableIf ≠ winningChoice p.choices p.scores) :
    resolve p = Except.ok Outcome.noExecution := by
  simp [resolve, h1, h2, h3]

/-- A finalized, quorum-reaching vote whose executableIf names choice C
while choice B wins (first index achieving the maximal score 5). -/
def voteNoExec : SnapshotProposal :=
  { choices := ["A", "B", "C"]
    safeSnap := some { executableIf := some "C", safes := [], txString := none }
    quorum := 1, scores := [1, 5, 5], scores_state := "final", scores_total := 11 }

/-- Witness for C9: the winning choice is B (lowest index for the maximal
score), executableIf is C, and resolve returns the no-execution outcome. -/
theorem C9_witness :
    winningChoice voteNoExec.choices voteNoExec.scores = some "B" ∧
    resolve voteNoExec = Except.ok Outcome.noExecution :=
  ⟨by decide, C9_no_execution_outcome voteNoExec (by decide) (by decide) (by decide)⟩

/-- A first safeSnap transaction as the resolver selects it. -/
def txA : SafeTx := { toAddr := "0xaaaa", value := "0", data := "0x", operation := 0 }

/-- A different first safeSnap transaction. -/
def txB : SafeTx := { toAddr := "0xbbbb", value := "123", data := "0xdead", operation := 1 }

/-- A finalized, quorum-reaching, executable vote carrying the given first
transaction and the fixed txString 0x00ff. -/
def voteWith (tx : SafeTx) : SnapshotProposal :=
  { choices := ["Yes", "No"]
    safeSnap := some { executableIf := some "Yes"
                       safes := [{ txs := [{ hash := "h", transactions := [tx] }] }]
                       txString := some "0x00ff" }
    quorum := 1, scores := [10, 5], scores_state := "final", scores_total := 15 }

/-- Claim C4, recorded as a code bug. The payload the resolver returns when
shouldExecute holds is Buffer.from of plugins.safeSnap.txString, a field
that is never populated from the selected transaction: two vote results
that differ only in the selected transaction at batch-index 0, sub-index 0
produce the identical payload, decoding the fixed txString instead of any
serialization of the selected transaction's encoding. -/
theorem C4_payload_from_txString_only :
    txA ≠ txB ∧
    resolve (voteWith txA) = Except.ok (Outcome.payload [0, 255]) ∧
    resolve (voteWith txA) = resolve (voteWith txB) := by
  refine ⟨by decide, rfl, rfl⟩

/-- The pre-state of the C5 counterexample: two resolution requests were
issued for proposal p (request ids 1 and 2), and request 1 delivered a
successful 32-byte commitment. -/
def trC5 : List ConsumerAction :=
  [ConsumerAction.executeRequest "p" 1,
   ConsumerAction.executeRequest "p" 2,
   ConsumerAction.fulfill 1 (List.replicate 32 7) []]

/-- Counterexample to claim C5 as stated: in a reachable state in which
proposal p is unexecuted and already holds a stored commitment, the delivery
of an oracle error (empty response, non-empty err) under the still-pending
request id 2 does not leave the commitment list unchanged: it overwrites the
stored commitment with the empty list. -/
theorem C5_counterexample :
    (runTrace hashW envW trC5).executed "p" = false ∧
    (runTrace hashW envW trC5).pending 2 = true ∧
    (runTrace hashW envW trC5).proposals "p" = [List.replicate 32 7] ∧
    (runTrace hashW envW (trC5 ++ [ConsumerAction.fulfill 2 [] [1]])).proposals "p" = [] := by
  refine ⟨by decide, by decide, by decide, by decide⟩

/-- Claim C5 as amended. An error delivery (the oracle sets err and leaves
the response empty) under a pending request id for an unexecuted proposal
stores the decode of the empty response, setting the correlated proposal's
commitment list to the empty list (so the list is unchanged only when it was
already empty); and a redelivery under an already-consumed request id is
refused by the transport guard as a no-op that changes no state. The
counterexample shows that a proposal can reach an error delivery with a
non-empty list through a second request id, and is then clobbered. -/
theorem C5_amended_commit (hash : HashFn) (env : CallEnv) (s t : ConsumerState)
    (rid rid2 : Nat) (resp err err2 : List Nat)
    (h1 : s.pending rid = true)
    (h2 : s.executed (s.functionRequestsForProposals rid) = false)
    (h3 : t.pending rid2 = false) :
    handleOracleFulfillment s rid [] err =
      Except.ok (setProposals (setPending s rid false) (s.functionRequestsForProposals rid) []) ∧
    (setProposals (setPending s rid false) (s.functionRequestsForProposals rid) []).proposals
      (s.functionRequestsForProposals rid) = [] ∧
    handleOracleFulfillment t rid2 resp err2 = Except.error EvmError.requestNotPending ∧
    step hash env t (ConsumerAction.fulfill rid2 resp err2) = t := by
  refine ⟨?_, ?_, ?_, ?_⟩
  · simp [handleOracleFulfillment, fulfillRequest, h1, h2, setPending, bytesToBytes32Array]
  · simp [setProposals]
  · simp [handleOracleFulfillment, h3]
  · simp [step, applyTx, handleOracleFulfillment, h3]

/-- The state after a single resolution request for proposal p under request
id 1. -/
def sC5 : ConsumerState := setPending (setCorrelation initState 1 "p") 1 true

/-- Witness for the amended C5 at concrete states: an error delivery under
pending request id 1 stores the empty list, and a delivery under the never-
issued request id 2 of the fresh state is refused without a state change. -/
theorem C5_amended_witness :
    handleOracleFulfillment sC5 1 [] [1] =
      Except.ok (setProposals (setPending sC5 1 false) (sC5.functionRequestsForProposals 1) []) ∧
    (setProposals (setPending sC5 1 false) (sC5.functionRequestsForProposals 1) []).proposals
      (sC5.functionRequestsForProposals 1) = [] ∧
    handleOracleFulfillment initState 2 [] [] = Except.error EvmError.requestNotPending ∧
    step hashW envW initState (ConsumerAction.fulfill 2 [] []) = initState :=
  C5_amended_commit hashW envW sC5 initState 1 2 [] [1] [] (by decide) (by decide) (by decide)

end FunctionsVote
